import Mathlib

/-!
Shallow embedding of the data-reconciliation pipeline of `src/dashboard.py`
(the AudioPine dashboard): type normalization, the sales/inventory left join,
the sidebar filter cascade, and the aggregation functions of the three tabs.

Tabular data is modelled as lists of records; a missing cell (pandas NaN/NaT)
is `Option.none`.  Calendar dates are day numbers (`Nat`), with day 0 chosen
to be a Monday.  Numeric cells are rationals.
-/

namespace AudioPine

/-- Python `str.strip()` / pandas `.str.strip()` on one string: remove
leading and trailing whitespace. -/
def strStrip (s : String) : String :=
  String.mk (((s.data.dropWhile Char.isWhitespace).reverse.dropWhile
    Char.isWhitespace).reverse)

/-- Value of one decimal digit character, `none` on a non-digit. -/
def digVal (c : Char) : Option Nat :=
  if c.isDigit then some (c.toNat - 48) else none

/-- Parse a nonempty all-digit character list to a natural number;
`none` on an empty list or any non-digit. -/
def parseDigits (cs : List Char) : Option Nat :=
  cs.foldl
    (fun acc c =>
      match acc, digVal c with
      | some n, some d => some (10 * n + d)
      | _, _ => none)
    (if cs.isEmpty then none else some 0)

/-- Model of `pd.to_numeric(x, errors='coerce')` on one cell: an optionally
signed decimal literal (with optional fractional part) parses to a rational,
anything else coerces to `none` (NaN). -/
def parseNum (s : String) : Option ℚ :=
  let cs := (strStrip s).toList
  let signed : Bool × List Char :=
    match cs with
    | '-' :: rest => (true, rest)
    | '+' :: rest => (false, rest)
    | _ => (false, cs)
  let ip := signed.2.takeWhile (fun c => c ≠ '.')
  let rest := signed.2.dropWhile (fun c => c ≠ '.')
  let core : Option ℚ :=
    match rest with
    | [] => (parseDigits ip).map (fun n => (n : ℚ))
    | _ :: frac =>
        if ip.isEmpty && frac.isEmpty then none
        else
          match (if ip.isEmpty then some 0 else parseDigits ip),
                (if frac.isEmpty then some 0 else parseDigits frac) with
          | some n, some f => some ((n : ℚ) + (f : ℚ) / (10 : ℚ) ^ frac.length)
          | _, _ => none
  core.map (fun q => if signed.1 then -q else q)

/-- `pd.to_numeric(x, errors='coerce').fillna(0)` on one optional cell
(dashboard.py lines 53-57, 67). -/
def numOrZero (c : Option String) : ℚ := (c.bind parseNum).getD 0

/-- A raw sales row after `read_csv` and the column rename of line 51:
every cell may be missing.  The sale date carries the result of
`pd.to_datetime(..., errors='coerce')` (line 52): `none` is NaT. -/
structure RawSale where
  itemId : Option String
  saleDate : Option Nat
  profitCell : Option String
  qtyCell : Option String
  totalSale : Option String
  paymentMethod : Option String
  installerReferral : Option String
  customerName : Option String
deriving DecidableEq

/-- A raw inventory row after `read_csv`: every cell may be missing. -/
structure RawInv where
  itemId : Option String
  category : Option String
  productName : Option String
  supplierPriceCell : Option String
  sellingPriceCell : Option String
  balanceStockCell : Option String
deriving DecidableEq

/-- A normalized sales row: survives `dropna(subset=['Sale Date','Item ID'])`
(line 59) with its identifier trimmed (line 63) and profit/quantity coerced
with default 0 (lines 53-54). -/
structure Sale where
  itemId : String
  saleDate : Nat
  profit : ℚ
  qty : ℚ
  totalSale : Option String
  paymentMethod : Option String
  installerReferral : Option String
  customerName : Option String
deriving DecidableEq

/-- A normalized inventory row: survives `dropna(subset=['Item ID'])`
(line 60) with its identifier trimmed (line 62) and the three numeric
columns coerced with default 0 (lines 55-57). -/
structure Inv where
  itemId : String
  category : Option String
  productName : Option String
  supplierPrice : ℚ
  sellingPrice : ℚ
  balanceStock : ℚ
deriving DecidableEq

/-- Normalization of one raw sales row (lines 51-59, 63): the row is dropped
(`none`) exactly when its sale date or its identifier cell is missing;
otherwise the identifier is trimmed and the numeric cells defaulted. -/
def normalizeRawSale (r : RawSale) : Option Sale :=
  match r.itemId, r.saleDate with
  | some id, some d =>
      some ⟨strStrip id, d, numOrZero r.profitCell, numOrZero r.qtyCell,
            r.totalSale, r.paymentMethod, r.installerReferral, r.customerName⟩
  | _, _ => none

/-- Normalization of one raw inventory row (lines 55-57, 60, 62). -/
def normalizeRawInv (r : RawInv) : Option Inv :=
  match r.itemId with
  | some id =>
      some ⟨strStrip id, r.category, r.productName, numOrZero r.supplierPriceCell,
            numOrZero r.sellingPriceCell, numOrZero r.balanceStockCell⟩
  | none => none

/-- The sales table after cleaning: per-row normalization with dropped rows
removed. -/
def normalizeSales (rows : List RawSale) : List Sale :=
  rows.filterMap normalizeRawSale

/-- The inventory table after cleaning. -/
def normalizeInv (rows : List RawInv) : List Inv :=
  rows.filterMap normalizeRawInv

/-- A merged record (one row of `df_merged` after lines 65-71): a sale with
the matching inventory row's descriptive fields attached (`none` for an
orphan sale), revenue coerced with default 0, category filled with
"Unknown" then trimmed, payment/referral trimmed where present. -/
structure Merged where
  itemId : String
  saleDate : Nat
  profit : ℚ
  qty : ℚ
  revenue : ℚ
  paymentMethod : Option String
  installerReferral : Option String
  customerName : Option String
  category : String
  productName : Option String
  supplierPrice : Option ℚ
  sellingPrice : Option ℚ
deriving DecidableEq

/-- Post-join column derivation (lines 66-71) for one sale and its optional
inventory match: revenue = `to_numeric('Total Sale').fillna(0)`;
`Category.fillna('Unknown').str.strip()`; `str.strip()` on payment and
referral leaves a missing value missing (pandas `.str` skips NaN). -/
def mergeRow (s : Sale) (i : Option Inv) : Merged :=
  { itemId := s.itemId
    saleDate := s.saleDate
    profit := s.profit
    qty := s.qty
    revenue := numOrZero s.totalSale
    paymentMethod := s.paymentMethod.map strStrip
    installerReferral := s.installerReferral.map strStrip
    customerName := s.customerName
    category := strStrip ((i.bind Inv.category).getD "Unknown")
    productName := i.bind Inv.productName
    supplierPrice := i.map Inv.supplierPrice
    sellingPrice := i.map Inv.sellingPrice }

/-- Inventory rows matching one sale's identifier. -/
def invMatches (inv : List Inv) (s : Sale) : List Inv :=
  inv.filter (fun i => i.itemId == s.itemId)

/-- `pd.merge(df_sales, df_inventory, on="Item ID", how="left")` (line 65):
every sale row is kept; it fans out to one output row per matching inventory
row, or to a single orphan row when no inventory row matches. -/
def leftJoin (sales : List Sale) (inv : List Inv) : List Merged :=
  sales.flatMap (fun s =>
    let ms := invMatches inv s
    if ms.isEmpty then [mergeRow s none] else ms.map (fun i => mergeRow s (some i)))

/-! ## Filter engine (lines 89-97) -/

/-- Date-range filter, inclusive on both ends (line 89). -/
def dfDateFiltered (recs : List Merged) (s e : Nat) : List Merged :=
  recs.filter (fun r => decide (s ≤ r.saleDate) && decide (r.saleDate ≤ e))

/-- Category multiselect filter (line 93). -/
def dfCatFiltered (recs : List Merged) (s e : Nat) (cats : List String) :
    List Merged :=
  (dfDateFiltered recs s e).filter (fun r => cats.contains r.category)

/-- Product-name multiselect filter (line 97); an orphan sale's product name
is `none` and is matched against the selected options like any other value. -/
def dfFiltered (recs : List Merged) (s e : Nat) (cats : List String)
    (prods : List (Option String)) : List Merged :=
  (dfCatFiltered recs s e cats).filter (fun r => prods.contains r.productName)

/-! ## Aggregation engine -/

/-- Sum of a numeric column. -/
def sumBy (f : Merged → ℚ) (recs : List Merged) : ℚ := (recs.map f).sum

/-- Python `int()` on a decimal value: truncation toward zero. -/
def ratTrunc (q : ℚ) : ℤ := if 0 ≤ q then ⌊q⌋ else ⌈q⌉

/-- `int(df_filtered["Revenue"].sum())` (line 110). -/
def totalRevenue (recs : List Merged) : ℤ := ratTrunc (sumBy Merged.revenue recs)

/-- `int(df_filtered["Profit"].sum())` (line 111). -/
def totalProfit (recs : List Merged) : ℤ := ratTrunc (sumBy Merged.profit recs)

/-- `int(df_filtered["Quantity Sold"].sum())` (line 112). -/
def totalItemsSold (recs : List Merged) : ℤ := ratTrunc (sumBy Merged.qty recs)

/-- Average profit margin (line 113): computed from the truncated integer
totals, guarded so that a non-positive total revenue yields 0. -/
def avgProfitMargin (recs : List Merged) : ℚ :=
  if 0 < totalRevenue recs
  then (totalProfit recs : ℚ) / (totalRevenue recs : ℚ) * 100
  else 0

/-- The `W-Mon` resampling label of a date: the first Monday at or after it
(pandas `resample('W-Mon')` bins are right-closed and right-labelled, so a
bucket covers Tuesday through Monday and is labelled by that Monday). -/
def weekLabel (d : Nat) : Nat := d + (7 - d % 7) % 7

/-- Total profit of the records falling in the week labelled `w`. -/
def profitInWeek (recs : List Merged) (w : Nat) : ℚ :=
  ((recs.filter (fun r => weekLabel r.saleDate == w)).map Merged.profit).sum

/-- `df_filtered.set_index('Sale Date').resample('W-Mon')['Profit'].sum()`
(line 124): one bucket per Monday label from the label of the earliest sale
date to the label of the latest, in ascending order; a bucket containing no
record gets the empty sum 0. -/
def weeklyProfit (recs : List Merged) : List (Nat × ℚ) :=
  match (recs.map Merged.saleDate).min?, (recs.map Merged.saleDate).max? with
  | some lo, some hi =>
      (List.range ((weekLabel hi - weekLabel lo) / 7 + 1)).map
        (fun k => (weekLabel lo + 7 * k, profitInWeek recs (weekLabel lo + 7 * k)))
  | _, _ => []

/-- `df.groupby(key)[val].sum()` with pandas' default NaN-key dropping:
one bucket per distinct present key value; rows whose key is missing
contribute to no bucket. -/
def groupBySum (key : Merged → Option String) (val : Merged → ℚ)
    (recs : List Merged) : List (String × ℚ) :=
  (recs.filterMap key).dedup.map
    (fun k => (k, ((recs.filter (fun r => key r == some k)).map val).sum))

/-- `df_filtered.groupby("Installer/Referral")["Profit"].sum().sort_values()`
(line 130), ascending by value. -/
def profitByInstaller (recs : List Merged) : List (String × ℚ) :=
  (groupBySum Merged.installerReferral Merged.profit recs).mergeSort
    (fun a b => decide (a.2 ≤ b.2))

/-- `df_filtered.groupby("Payment Method")["Profit"].sum()` (line 134). -/
def profitByPayment (recs : List Merged) : List (String × ℚ) :=
  groupBySum Merged.paymentMethod Merged.profit recs

/-- `.nlargest(n)` on a grouped sum: the n largest buckets, descending. -/
def topN (n : Nat) (l : List (String × ℚ)) : List (String × ℚ) :=
  (l.mergeSort (fun a b => decide (b.2 ≤ a.2))).take n

/-- Top 5 products by profit (line 142). -/
def topProductsByProfit (recs : List Merged) : List (String × ℚ) :=
  topN 5 (groupBySum Merged.productName Merged.profit recs)

/-- `int((df_inventory['Balance Stock'] * df_inventory['Supplier Price (Ksh)']).sum())`
(line 153), over the unfiltered inventory. -/
def totalStockValueCost (inv : List Inv) : ℤ :=
  ratTrunc ((inv.map (fun i => i.balanceStock * i.supplierPrice)).sum)

/-- `int((df_inventory['Balance Stock'] * df_inventory['Selling Price (Ksh)']).sum())`
(line 154). -/
def totalStockValueRetail (inv : List Inv) : ℤ :=
  ratTrunc ((inv.map (fun i => i.balanceStock * i.sellingPrice)).sum)

/-- `df_inventory[df_inventory["Balance Stock"] <= 5]` (lines 164-165). -/
def lowStockItems (inv : List Inv) : List Inv :=
  inv.filter (fun i => decide (i.balanceStock ≤ 5))

/-- `df_sales_merged.groupby('Item ID')['Sale Date'].max()` for one
identifier (line 169): latest sale date among the merged rows carrying it,
`none` when the identifier never sold. -/
def lastSaleDate (merged : List Merged) (id : String) : Option Nat :=
  ((merged.filter (fun m => m.itemId == id)).map Merged.saleDate).max?

/-- `df_sales_merged['Sale Date'].max()` (line 172): latest sale date in the
whole unfiltered merged dataset. -/
def latestDateInData (merged : List Merged) : Option Nat :=
  (merged.map Merged.saleDate).max?

/-- Lines 173-178 for one inventory row: slow-moving iff never sold, or the
days between its last sale and the dataset's latest sale date exceed 90. -/
def isSlowMoving (merged : List Merged) (i : Inv) : Bool :=
  match lastSaleDate merged i.itemId, latestDateInData merged with
  | none, _ => true
  | some last, some latest => decide ((90 : ℤ) < (latest : ℤ) - (last : ℤ))
  | some _, none => false

/-- The slow-moving stock table (lines 175-178). -/
def slowMoving (inv : List Inv) (merged : List Merged) : List Inv :=
  inv.filter (fun i => isSlowMoving merged i)

/-! ## Dashboard rendering (lines 99-179) -/

/-- Everything the three tabs compute. -/
structure Dashboard where
  totalRevenue : ℤ
  totalProfit : ℤ
  totalItemsSold : ℤ
  avgProfitMargin : ℚ
  weeklyProfit : List (Nat × ℚ)
  profitByInstaller : List (String × ℚ)
  profitByPayment : List (String × ℚ)
  topProductsByProfit : List (String × ℚ)
  totalStockValueCost : ℤ
  totalStockValueRetail : ℤ
  lowStockItems : List Inv
  slowMoving : List Inv
deriving DecidableEq

/-- The post-filter rendering pass: when the filtered set is empty the app
warns and stops (lines 99-101) — no aggregate is computed — otherwise every
tab is rendered from the filtered set (and the unfiltered inventory/merged
data where the source uses those). -/
def renderDashboard (inv : List Inv) (merged : List Merged) (s e : Nat)
    (cats : List String) (prods : List (Option String)) : Option Dashboard :=
  let f := dfFiltered merged s e cats prods
  if f.isEmpty then none
  else some
    { totalRevenue := totalRevenue f
      totalProfit := totalProfit f
      totalItemsSold := totalItemsSold f
      avgProfitMargin := avgProfitMargin f
      weeklyProfit := weeklyProfit f
      profitByInstaller := profitByInstaller f
      profitByPayment := profitByPayment f
      topProductsByProfit := topProductsByProfit f
      totalStockValueCost := totalStockValueCost inv
      totalStockValueRetail := totalStockValueRetail inv
      lowStockItems := lowStockItems inv
      slowMoving := slowMoving inv merged }

/-! ## Concrete example data used by witnesses and counterexamples -/

/-- A merged record for a 3000 Ksh, 500-profit sale of item A1 on day 10. -/
def exSaleRec : Merged :=
  ⟨"A1", 10, 500, 2, 3000, some "Cash", some "Bob", some "C", "Speakers",
   some "S", some 1000, some 1500⟩

/-! ## Helper lemmas -/

/-- When inventory identifiers are pairwise distinct, at most one inventory
row matches any identifier. -/
theorem length_filter_id_le_one {inv : List Inv}
    (h : (inv.map Inv.itemId).Nodup) (id : String) :
    (inv.filter (fun i => i.itemId == id)).length ≤ 1 := by
  induction inv with
  | nil => simp
  | cons a t ih =>
    simp only [List.map_cons, List.nodup_cons] at h
    rw [List.filter_cons]
    by_cases ha : a.itemId = id
    · have hfil : t.filter (fun i => i.itemId == id) = [] := by
        rw [List.filter_eq_nil_iff]
        intro b hb hbeq
        have hbid : b.itemId = id := by simpa using hbeq
        exact h.1 (by
          rw [List.mem_map]
          exact ⟨b, hb, by rw [hbid, ha]⟩)
      simp [ha, hfil]
    · have hfalse : (a.itemId == id) = false := by simpa using ha
      simp only [hfalse, Bool.false_eq_true, if_false]
      exact ih h.2

theorem avg_profit_margin_unfold (recs : List Merged) :
    avgProfitMargin recs
      = if 0 < totalRevenue recs
        then (totalProfit recs : ℚ) / (totalRevenue recs : ℚ) * 100
        else 0 := rfl

/-! ## Claim theorems -/

/-- C1: for every normalized sales table and normalized inventory table in
which each identifier occurs in at most one inventory row, the left join
produces exactly one merged row per sales row, in order — no sale is dropped
or duplicated, so the merged row count equals the sales row count. -/
theorem join_preserves_sales_rows (sales : List Sale) (inv : List Inv)
    (h : (inv.map Inv.itemId).Nodup) :
    leftJoin sales inv
        = sales.map (fun s => mergeRow s (invMatches inv s).head?) ∧
    (leftJoin sales inv).length = sales.length := by
  have key : ∀ s : Sale,
      (if (invMatches inv s).isEmpty then [mergeRow s none]
       else (invMatches inv s).map (fun i => mergeRow s (some i)))
        = [mergeRow s (invMatches inv s).head?] := by
    intro s
    rcases hm : invMatches inv s with _ | ⟨a, u⟩
    · simp
    · have hlen : (invMatches inv s).length ≤ 1 :=
        length_filter_id_le_one h s.itemId

      rw [hm] at hlen
      have hu : u = [] := by
        simp only [List.length_cons] at hlen
        exact List.eq_nil_of_length_eq_zero (by omega)
      subst hu
      simp
  have hmap : leftJoin sales inv
      = sales.map (fun s => mergeRow s (invMatches inv s).head?) := by
    unfold leftJoin
    induction sales with
    | nil => rfl
    | cons s t ih =>
      rw [List.flatMap_cons, List.map_cons, key s, ih]
      rfl
  exact ⟨hmap, by rw [hmap, List.length_map]⟩

/-- Witness for C1 at a concrete sales table (two sales of item A1, one
orphan sale) and a duplicate-free inventory. -/
theorem join_preserves_sales_rows_witness :
    (leftJoin
        [⟨"A1", 10, 500, 2, some "3000", some "Cash", some "Bob", none⟩,
         ⟨"A1", 12, 100, 1, none, none, none, none⟩,
         ⟨"ZZ", 13, 7, 1, none, none, none, none⟩]
        [⟨"A1", some "Speakers", some "S", 1000, 1500, 3⟩,
         ⟨"B2", some "Cables", some "K", 10, 20, 9⟩]).length = 3 :=
  (join_preserves_sales_rows _ _ (by decide)).2

/-- C6: the average profit margin equals total profit over total revenue
times 100 when the (truncated) total revenue is positive, and is exactly 0
when total revenue is 0; being a total function of the record set, the
computation never faults. -/
theorem avg_profit_margin_guarded (recs : List Merged) :
    (0 < totalRevenue recs →
      avgProfitMargin recs
        = (totalProfit recs : ℚ) / (totalRevenue recs : ℚ) * 100) ∧
    (totalRevenue recs = 0 → avgProfitMargin recs = 0) := by
  rw [avg_profit_margin_unfold]
  constructor
  · intro h; rw [if_pos h]
  · intro h; rw [if_neg (by omega)]

/-- Witness for C6: a record set with positive revenue takes the ratio
branch; the empty record set has total revenue 0 and margin exactly 0. -/
theorem avg_profit_margin_guarded_witness :
    avgProfitMargin [exSaleRec]
        = (totalProfit [exSaleRec] : ℚ) / (totalRevenue [exSaleRec] : ℚ) * 100 ∧
    avgProfitMargin ([] : List Merged) = 0 :=
  ⟨(avg_profit_margin_guarded [exSaleRec]).1 (by
      norm_num [totalRevenue, sumBy, exSaleRec, ratTrunc]),
   (avg_profit_margin_guarded []).2 (by
      norm_num [totalRevenue, sumBy, ratTrunc])⟩

/-- C8: a filter combination yielding zero records makes the renderer
return the distinct empty signal `none` — no aggregate of any tab is
computed — while any nonempty filtered set renders a full dashboard;
the empty case is a signal, not an error. -/
theorem empty_filter_suppresses_aggregation (inv : List Inv)
    (merged : List Merged) (s e : Nat) (cats : List String)
    (prods : List (Option String)) :
    (renderDashboard inv merged s e cats prods = none ↔
      dfFiltered merged s e cats prods = []) ∧
    (dfFiltered merged s e cats prods ≠ [] →
      ∃ d, renderDashboard inv merged s e cats prods = some d) := by
  unfold renderDashboard
  by_cases h : dfFiltered merged s e cats prods = []
  · simp [h]
  · simp [h]

/-- Witness for C8: an all-empty session yields the empty signal; a filter
matching the example record yields a rendered dashboard. -/
theorem empty_filter_suppresses_aggregation_witness :
    renderDashboard [] [] 0 0 [] [] = none ∧
    ∃ d, renderDashboard [] [exSaleRec] 0 20 ["Speakers"] [some "S"] = some d :=
  ⟨(empty_filter_suppresses_aggregation [] [] 0 0 [] []).1.mpr rfl,
   (empty_filter_suppresses_aggregation [] [exSaleRec] 0 20 ["Speakers"]
      [some "S"]).2 (by decide)⟩

/-- C7: the filter engine returns exactly the records of the merged set
whose sale date lies in the inclusive range and whose category and product
name are among the allowed values — the conjunction of the three
predicates — and the result is an order-preserving subsequence of the
merged dataset, which itself is left untouched. -/
theorem filter_is_conjunction (recs : List Merged) (s e : Nat)
    (cats : List String) (prods : List (Option String)) (r : Merged) :
    (r ∈ dfFiltered recs s e cats prods ↔
      r ∈ recs ∧ s ≤ r.saleDate ∧ r.saleDate ≤ e ∧
        r.category ∈ cats ∧ r.productName ∈ prods) ∧
    (dfFiltered recs s e cats prods).Sublist recs := by
  constructor
  · simp only [dfFiltered, dfCatFiltered, dfDateFiltered, List.mem_filter,
      List.contains, Bool.and_eq_true, decide_eq_true_eq, List.elem_eq_mem,
      and_assoc]
  · unfold dfFiltered dfCatFiltered dfDateFiltered
    exact ((List.filter_sublist _).trans (List.filter_sublist _)).trans
      (List.filter_sublist _)

/-- Witness for C7: the example record passes a filter whose bounds and
sets admit it. -/
theorem filter_is_conjunction_witness :
    exSaleRec ∈ dfFiltered [exSaleRec] 0 20 ["Speakers"] [some "S"] :=
  (filter_is_conjunction [exSaleRec] 0 20 ["Speakers"] [some "S"]
    exSaleRec).1.mpr
    ⟨by decide, by decide, by decide, by decide, by decide⟩

/-- C4: the revenue column of a merged row is the sale row's own
`Total Sale` cell coerced to a number — independent of the attached
inventory row, hence not derived from price times quantity — and it
defaults to 0 both when the cell is absent and when it is unparseable;
being a total function, this defaulting never raises an error. -/
theorem revenue_from_sales_defaults_zero (s : Sale) (i : Option Inv) :
    (mergeRow s i).revenue = numOrZero s.totalSale ∧
    (s.totalSale = none → (mergeRow s i).revenue = 0) ∧
    (∀ t, s.totalSale = some t → parseNum t = none →
      (mergeRow s i).revenue = 0) ∧
    (∀ t q, s.totalSale = some t → parseNum t = some q →
      (mergeRow s i).revenue = q) := by
  refine ⟨rfl, ?_, ?_, ?_⟩
  · intro h
    simp [mergeRow, numOrZero, h]
  · intro t ht hp
    simp [mergeRow, numOrZero, ht, hp]
  · intro t q ht hp
    simp [mergeRow, numOrZero, ht, hp]

/-- Witness for C4: with inventory price 1500 and quantity 2 attached, an
unparseable cell yields 0 and a parseable cell yields its own value 999
(not 3000 = price times quantity). -/
theorem revenue_from_sales_defaults_zero_witness :
    (mergeRow ⟨"A1", 10, 500, 2, some "n/a", none, none, none⟩
        (some ⟨"A1", some "Speakers", some "S", 1000, 1500, 3⟩)).revenue = 0 ∧
    (mergeRow ⟨"A1", 10, 500, 2, some "999", none, none, none⟩
        (some ⟨"A1", some "Speakers", some "S", 1000, 1500, 3⟩)).revenue = 999 ∧
    (mergeRow ⟨"A1", 10, 500, 2, none, none, none, none⟩
        (some ⟨"A1", some "Speakers", some "S", 1000, 1500, 3⟩)).revenue = 0 :=
  ⟨(revenue_from_sales_defaults_zero _ _).2.2.1 "n/a" rfl (by decide),
   (revenue_from_sales_defaults_zero _ _).2.2.2 "999" 999 rfl (by decide),
   (revenue_from_sales_defaults_zero _ _).2.1 rfl⟩

/-- C5: given the latest sale date of the whole unfiltered merged dataset,
an inventory item is classified slow-moving exactly when it has no sale
history (never sold) or the days between its most recent sale and that
latest date strictly exceed 90; the slow-moving table consists of exactly
the inventory rows so classified. -/
theorem slow_moving_iff (merged : List Merged) (i : Inv) (latest : Nat)
    (hl : latestDateInData merged = some latest) :
    (isSlowMoving merged i = true ↔
      lastSaleDate merged i.itemId = none ∨
      ∃ last, lastSaleDate merged i.itemId = some last ∧
        (90 : ℤ) < (latest : ℤ) - (last : ℤ)) ∧
    (∀ inv : List Inv,
      i ∈ slowMoving inv merged ↔ i ∈ inv ∧ isSlowMoving merged i = true) := by
  constructor
  · unfold isSlowMoving
    rcases hm : lastSaleDate merged i.itemId with _ | last
    · simp
    · rw [hl]
      simp
  · intro inv
    simp [slowMoving, List.mem_filter]

/-- Witness for C5, exercising the strict 91/90-day boundary: with sales
on days 0 (item A1), 1 (item B2) and 91 (item C3), the dataset maximum is
day 91; A1 (91 days stale) is slow-moving and B2 (90 days stale) is not. -/
theorem slow_moving_iff_witness :
    isSlowMoving
        [⟨"A1", 0, 1, 1, 0, none, none, none, "U", none, none, none⟩,
         ⟨"B2", 1, 1, 1, 0, none, none, none, "U", none, none, none⟩,
         ⟨"C3", 91, 1, 1, 0, none, none, none, "U", none, none, none⟩]
        ⟨"A1", none, none, 0, 0, 0⟩ = true ∧
    isSlowMoving
        [⟨"A1", 0, 1, 1, 0, none, none, none, "U", none, none, none⟩,
         ⟨"B2", 1, 1, 1, 0, none, none, none, "U", none, none, none⟩,
         ⟨"C3", 91, 1, 1, 0, none, none, none, "U", none, none, none⟩]
        ⟨"B2", none, none, 0, 0, 0⟩ = false := by
  constructor
  · exact (slow_moving_iff _ _ 91 (by decide)).1.mpr
      (Or.inr ⟨0, by decide, by decide⟩)
  · have h := (slow_moving_iff
        [⟨"A1", 0, 1, 1, 0, none, none, none, "U", none, none, none⟩,
         ⟨"B2", 1, 1, 1, 0, none, none, none, "U", none, none, none⟩,
         ⟨"C3", 91, 1, 1, 0, none, none, none, "U", none, none, none⟩]
        ⟨"B2", none, none, 0, 0, 0⟩ 91 (by decide)).1
    rw [Bool.eq_false_iff]
    intro htrue
    rcases h.mp htrue with hnone | ⟨last, hsome, hgt⟩
    · rw [show lastSaleDate
          [⟨"A1", 0, 1, 1, 0, none, none, none, "U", none, none, none⟩,
           ⟨"B2", 1, 1, 1, 0, none, none, none, "U", none, none, none⟩,
           ⟨"C3", 91, 1, 1, 0, none, none, none, "U", none, none, none⟩]
          (Inv.itemId ⟨"B2", none, none, 0, 0, 0⟩) = some 1 from by decide]
        at hnone
      exact Option.noConfusion hnone
    · rw [show lastSaleDate
          [⟨"A1", 0, 1, 1, 0, none, none, none, "U", none, none, none⟩,
           ⟨"B2", 1, 1, 1, 0, none, none, none, "U", none, none, none⟩,
           ⟨"C3", 91, 1, 1, 0, none, none, none, "U", none, none, none⟩]
          (Inv.itemId ⟨"B2", none, none, 0, 0, 0⟩) = some 1 from by decide]
        at hsome
      have hlast : last = 1 := by
        injection hsome with h1
        exact h1.symm
      rw [hlast] at hgt
      omega

/-- C10: a sales or inventory row whose identifier cell is present is never
dropped — normalization drops a sales row exactly when its identifier or
date cell is missing and an inventory row exactly when its identifier cell
is missing — and the identifier is trimmed only afterwards, so a present
all-whitespace identifier survives on both sides and trims to the empty
string; a normalized sale joins every inventory row bearing the same
trimmed key, and in particular a raw sales row and a raw inventory row
whose identifiers trim to the same key (the empty string included) are
both kept by the pipeline and joined with each other in the left join. -/
theorem whitespace_id_kept_and_joins (r : RawSale) (ri : RawInv) :
    (normalizeRawSale r = none ↔ r.itemId = none ∨ r.saleDate = none) ∧
    (normalizeRawInv ri = none ↔ ri.itemId = none) ∧
    (∀ id d, r.itemId = some id → r.saleDate = some d →
      ∃ sale, normalizeRawSale r = some sale ∧
        sale.itemId = strStrip id ∧ sale.saleDate = d) ∧
    (∀ id, ri.itemId = some id →
      ∃ i, normalizeRawInv ri = some i ∧ i.itemId = strStrip id) ∧
    (∀ (sale : Sale) (inv : List Inv) (i : Inv), i ∈ inv →
      i.itemId = sale.itemId →
      mergeRow sale (some i) ∈ leftJoin [sale] inv) ∧
    (∀ ids idi d, r.itemId = some ids → r.saleDate = some d →
      ri.itemId = some idi → strStrip ids = strStrip idi →
      ∃ sale i, normalizeRawSale r = some sale ∧
        normalizeRawInv ri = some i ∧ sale.itemId = i.itemId ∧
        mergeRow sale (some i)
          ∈ leftJoin (normalizeSales [r]) (normalizeInv [ri])) := by
  have hkeep : ∀ id d, r.itemId = some id → r.saleDate = some d →
      ∃ sale, normalizeRawSale r = some sale ∧
        sale.itemId = strStrip id ∧ sale.saleDate = d := by
    intro id d hid hd
    exact ⟨_, by unfold normalizeRawSale; rw [hid, hd], rfl, rfl⟩
  have hikeep : ∀ id, ri.itemId = some id →
      ∃ i, normalizeRawInv ri = some i ∧ i.itemId = strStrip id := by
    intro id hid
    exact ⟨_, by unfold normalizeRawInv; rw [hid], rfl⟩
  have hjoin : ∀ (sale : Sale) (inv : List Inv) (i : Inv), i ∈ inv →
      i.itemId = sale.itemId →
      mergeRow sale (some i) ∈ leftJoin [sale] inv := by
    intro sale inv i hmem hid
    have hin : i ∈ invMatches inv sale := by
      rw [invMatches, List.mem_filter]
      exact ⟨hmem, by simpa using hid⟩
    have hne : (invMatches inv sale).isEmpty = false := by
      rcases hm : invMatches inv sale with _ | _
      · rw [hm] at hin
        cases hin
      · rfl
    unfold leftJoin
    rw [List.flatMap_cons]
    simp only [hne, Bool.false_eq_true, if_false, List.flatMap_nil,
      List.append_nil]
    exact List.mem_map_of_mem _ hin
  refine ⟨?_, ?_, hkeep, hikeep, hjoin, ?_⟩
  · unfold normalizeRawSale
    rcases r.itemId with _ | id <;> rcases hd : r.saleDate with _ | d <;>
      simp [hd]
  · unfold normalizeRawInv
    rcases ri.itemId with _ | id <;> simp
  · intro ids idi d hs hd hi heq
    obtain ⟨sale, hsale, hsid, hsd⟩ := hkeep ids d hs hd
    obtain ⟨i, hinv, hiid⟩ := hikeep idi hi
    have hkey : sale.itemId = i.itemId := by rw [hsid, hiid, heq]
    refine ⟨sale, i, hsale, hinv, hkey, ?_⟩
    have h1 : normalizeSales [r] = [sale] := by
      simp [normalizeSales, List.filterMap_cons, hsale]
    have h2 : normalizeInv [ri] = [i] := by
      simp [normalizeInv, List.filterMap_cons, hinv]
    rw [h1, h2]
    exact hjoin sale [i] i (by simp) hkey.symm

/-- Witness for C10: an all-whitespace identifier survives normalization
as the empty string on both the sales and the inventory side, and the raw
whitespace-identifier sales row, run through the pipeline, joins the raw
whitespace-identifier inventory row on the shared empty-string key. -/
theorem whitespace_id_kept_and_joins_witness :
    (∃ sale, normalizeRawSale ⟨some "   ", some 5, none, none, none, none,
        none, none⟩ = some sale ∧
      sale.itemId = strStrip "   " ∧ sale.saleDate = 5) ∧
    (∃ i, normalizeRawInv ⟨some " ", some "Speakers", none, none, none,
        none⟩ = some i ∧
      i.itemId = strStrip " ") ∧
    (∃ sale i,
      normalizeRawSale ⟨some "   ", some 5, none, none, none, none, none,
          none⟩ = some sale ∧
      normalizeRawInv ⟨some " ", some "Speakers", none, none, none, none⟩
          = some i ∧
      sale.itemId = i.itemId ∧
      mergeRow sale (some i) ∈ leftJoin
        (normalizeSales
          [⟨some "   ", some 5, none, none, none, none, none, none⟩])
        (normalizeInv
          [⟨some " ", some "Speakers", none, none, none, none⟩])) :=
  ⟨(whitespace_id_kept_and_joins
      ⟨some "   ", some 5, none, none, none, none, none, none⟩
      ⟨some " ", some "Speakers", none, none, none, none⟩).2.2.1
      "   " 5 rfl rfl,
   (whitespace_id_kept_and_joins
      ⟨some "   ", some 5, none, none, none, none, none, none⟩
      ⟨some " ", some "Speakers", none, none, none, none⟩).2.2.2.1
      " " rfl,
   (whitespace_id_kept_and_joins
      ⟨some "   ", some 5, none, none, none, none, none, none⟩
      ⟨some " ", some "Speakers", none, none, none, none⟩).2.2.2.2.2
      "   " " " 5 rfl rfl rfl (by decide)⟩

/-- A sale with every optional cell missing (payment method included). -/
def exSaleNoPm : Sale := ⟨"A1", 10, 500, 2, none, none, none, none⟩

/-- A group-by never sees rows whose key is missing: prepending a row with
a `none` key leaves the grouped sums unchanged. -/
theorem groupBySum_drops_missing (key : Merged → Option String)
    (val : Merged → ℚ) (r : Merged) (recs : List Merged) (h : key r = none) :
    groupBySum key val (r :: recs) = groupBySum key val recs := by
  unfold groupBySum
  rw [List.filterMap_cons_none h]
  apply List.map_congr_left
  intro k hk
  rw [List.filter_cons]
  have hfalse : (key r == some k) = false := by rw [h]; rfl
  rw [hfalse]
  simp

/-- C3 counterexample: for a merged record whose payment method cell is
missing, the claim's asserted value — the empty string — is not what
normalization produces: the cell stays missing, and the payment group-by
produces no bucket for it at all. -/
theorem missing_payment_not_empty_string_cx :
    ¬ ((mergeRow exSaleNoPm none).paymentMethod = some "") ∧
    (mergeRow exSaleNoPm none).paymentMethod = none ∧
    profitByPayment [mergeRow exSaleNoPm none] = [] :=
  ⟨by decide, rfl, by decide⟩

/-- C3 (amended): a missing category is replaced by the literal "Unknown";
a missing payment method or installer/referral is left missing (not
defaulted to any string, empty or otherwise) while present values are only
trimmed; downstream group-by aggregation drops rows whose grouping value
is missing instead of giving them a blank bucket. -/
theorem categorical_defaults (s : Sale) (i : Option Inv) (r : Merged)
    (recs : List Merged) :
    (i.bind Inv.category = none → (mergeRow s i).category = "Unknown") ∧
    ((mergeRow s i).paymentMethod = s.paymentMethod.map strStrip) ∧
    ((mergeRow s i).installerReferral = s.installerReferral.map strStrip) ∧
    (s.paymentMethod = none → (mergeRow s i).paymentMethod = none) ∧
    (r.paymentMethod = none →
      profitByPayment (r :: recs) = profitByPayment recs) ∧
    (r.installerReferral = none →
      profitByInstaller (r :: recs) = profitByInstaller recs) := by
  refine ⟨?_, rfl, rfl, ?_, ?_, ?_⟩
  · intro h
    simp only [mergeRow, h, Option.getD_none]
    decide
  · intro h
    simp [mergeRow, h]
  · intro h
    unfold profitByPayment
    exact groupBySum_drops_missing _ _ _ _ h
  · intro h
    unfold profitByInstaller
    rw [groupBySum_drops_missing _ _ _ _ h]

/-- Witness for C3 (amended): the example sale with all cells missing gets
category "Unknown", keeps its payment method missing, and contributes no
payment bucket. -/
theorem categorical_defaults_witness :
    (mergeRow exSaleNoPm none).category = "Unknown" ∧
    (mergeRow exSaleNoPm none).paymentMethod = none ∧
    profitByPayment [mergeRow exSaleNoPm none] = profitByPayment [] :=
  ⟨(categorical_defaults exSaleNoPm none (mergeRow exSaleNoPm none) []).1 rfl,
   (categorical_defaults exSaleNoPm none
      (mergeRow exSaleNoPm none) []).2.2.2.1 rfl,
   (categorical_defaults exSaleNoPm none
      (mergeRow exSaleNoPm none) []).2.2.2.2.1 rfl⟩

/-- Truncation toward zero bounds a nonnegative value from below within
distance one. -/
theorem ratTrunc_nonneg_bounds (q : ℚ) (h : 0 ≤ q) :
    (ratTrunc q : ℚ) ≤ q ∧ q < (ratTrunc q : ℚ) + 1 := by
  rw [ratTrunc, if_pos h]
  exact ⟨Int.floor_le q, Int.lt_floor_add_one q⟩

/-- Truncation toward zero bounds a nonpositive value from above within
distance one. -/
theorem ratTrunc_nonpos_bounds (q : ℚ) (h : q ≤ 0) :
    q ≤ (ratTrunc q : ℚ) ∧ (ratTrunc q : ℚ) - 1 < q := by
  unfold ratTrunc
  by_cases h0 : 0 ≤ q
  · rw [if_pos h0]
    have hq : q = 0 := le_antisymm h h0
    subst hq
    norm_num
  · rw [if_neg h0]
    refine ⟨Int.le_ceil q, ?_⟩
    have := Int.ceil_lt_add_one q
    linarith

/-- C9: every displayed total — revenue, profit, items sold and the two
stock valuations — is the exact rational column sum truncated toward zero
to an integer (within one of the exact sum, on its zero side), and the
average profit margin is computed from the truncated totals, not from the
exact sums. -/
theorem displayed_totals_truncate (recs : List Merged) (inv : List Inv) :
    totalRevenue recs = ratTrunc (sumBy Merged.revenue recs) ∧
    totalProfit recs = ratTrunc (sumBy Merged.profit recs) ∧
    totalItemsSold recs = ratTrunc (sumBy Merged.qty recs) ∧
    totalStockValueCost inv
      = ratTrunc ((inv.map (fun i => i.balanceStock * i.supplierPrice)).sum) ∧
    totalStockValueRetail inv
      = ratTrunc ((inv.map (fun i => i.balanceStock * i.sellingPrice)).sum) ∧
    (∀ q : ℚ, 0 ≤ q → (ratTrunc q : ℚ) ≤ q ∧ q < (ratTrunc q : ℚ) + 1) ∧
    (∀ q : ℚ, q ≤ 0 → q ≤ (ratTrunc q : ℚ) ∧ (ratTrunc q : ℚ) - 1 < q) ∧
    avgProfitMargin recs
      = (if 0 < totalRevenue recs
         then (totalProfit recs : ℚ) / (totalRevenue recs : ℚ) * 100
         else 0) :=
  ⟨rfl, rfl, rfl, rfl, rfl,
   fun q h => ratTrunc_nonneg_bounds q h,
   fun q h => ratTrunc_nonpos_bounds q h, rfl⟩

/-- Witness for C9: truncation discards the fractional part of 3/2 toward
zero, and of -3/2 toward zero. -/
theorem displayed_totals_truncate_witness :
    ((ratTrunc (3 / 2 : ℚ) : ℚ) ≤ 3 / 2 ∧
      (3 / 2 : ℚ) < (ratTrunc (3 / 2 : ℚ) : ℚ) + 1) ∧
    ((-3 / 2 : ℚ) ≤ (ratTrunc (-3 / 2 : ℚ) : ℚ) ∧
      (ratTrunc (-3 / 2 : ℚ) : ℚ) - 1 < -3 / 2) :=
  ⟨(displayed_totals_truncate [] []).2.2.2.2.2.1 (3 / 2) (by norm_num),
   (displayed_totals_truncate [] []).2.2.2.2.2.2.1 (-3 / 2) (by norm_num)⟩

/-! ## Weekly profit trend (C2) -/

/-- The label of a date is a Monday. -/
theorem weekLabel_mod (d : Nat) : weekLabel d % 7 = 0 := by
  show (d + (7 - d % 7) % 7) % 7 = 0
  omega

/-- Week labels are monotone in the date. -/
theorem weekLabel_mono {d e : Nat} (h : d ≤ e) :
    weekLabel d ≤ weekLabel e := by
  show d + (7 - d % 7) % 7 ≤ e + (7 - e % 7) % 7
  omega

/-- On a nonempty record set the weekly trend is the bucket table over the
consecutive Monday labels spanning the data. -/
theorem weeklyProfit_eq (recs : List Merged) (lo hi : Nat)
    (hmin : (recs.map Merged.saleDate).min? = some lo)
    (hmax : (recs.map Merged.saleDate).max? = some hi) :
    weeklyProfit recs
      = (List.range ((weekLabel hi - weekLabel lo) / 7 + 1)).map
          (fun k => (weekLabel lo + 7 * k,
            profitInWeek recs (weekLabel lo + 7 * k))) := by
  unfold weeklyProfit
  rw [hmin, hmax]

/-- Every Monday between the first and last data label appears as a bucket
of the weekly trend, whether or not any record falls in it. -/
theorem weeklyProfit_bucket_present (recs : List Merged) (lo hi : Nat)
    (hmin : (recs.map Merged.saleDate).min? = some lo)
    (hmax : (recs.map Merged.saleDate).max? = some hi) (w : Nat)
    (hw : w % 7 = 0) (h1 : weekLabel lo ≤ w) (h2 : w ≤ weekLabel hi) :
    (w, profitInWeek recs w) ∈ weeklyProfit recs := by
  rw [weeklyProfit_eq recs lo hi hmin hmax, List.mem_map]
  have hlo := weekLabel_mod lo
  have hhi := weekLabel_mod hi
  refine ⟨(w - weekLabel lo) / 7, List.mem_range.mpr (by omega), ?_⟩
  have hval : weekLabel lo + 7 * ((w - weekLabel lo) / 7) = w := by omega
  rw [hval]

/-- Two sales 14 days apart with an empty week between them. -/
def exW : List Merged :=
  [⟨"A", 1, 1, 1, 0, none, none, none, "U", none, none, none⟩,
   ⟨"A", 15, 2, 1, 0, none, none, none, "U", none, none, none⟩]

/-- C2 counterexample: with sales only on days 1 and 15, the week labelled
day 14 contains no record, yet the weekly trend does not omit it — it
appears with total 0 (pandas resample zero-fills interior empty bins). -/
theorem weeklyProfit_omission_cx :
    weeklyProfit exW = [(7, 1), (14, 0), (21, 2)] ∧
    exW.filter (fun r => weekLabel r.saleDate == 14) = [] := by
  constructor
  · rw [weeklyProfit_eq exW 1 15 (by decide) (by decide),
      (by decide : List.range ((weekLabel 15 - weekLabel 1) / 7 + 1)
        = [0, 1, 2])]
    have e1 : exW.filter (fun r => weekLabel r.saleDate == 7)
        = [⟨"A", 1, 1, 1, 0, none, none, none, "U", none, none, none⟩] := by
      decide
    have e2 : exW.filter (fun r => weekLabel r.saleDate == 14) = [] := by
      decide
    have e3 : exW.filter (fun r => weekLabel r.saleDate == 21)
        = [⟨"A", 15, 2, 1, 0, none, none, none, "U", none, none, none⟩] := by
      decide
    rw [(by decide : weekLabel 1 = 7)]
    norm_num [profitInWeek, e1, e2, e3]
  · decide

/-- C2 (amended): on a nonempty record set the weekly profit trend buckets
records by Monday-anchored week (each record lands in the bucket labelled
by the first Monday at or after its sale date), sums profit per bucket,
lists the buckets strictly ascending by date, and zero-fills rather than
omits: every Monday from the first data label to the last appears as a
bucket, including weeks in which no record falls. -/
theorem weeklyProfit_buckets_and_zero_fills (recs : List Merged)
    (lo hi : Nat)
    (hmin : (recs.map Merged.saleDate).min? = some lo)
    (hmax : (recs.map Merged.saleDate).max? = some hi) :
    ((weeklyProfit recs).map Prod.fst).Pairwise (· < ·) ∧
    (∀ wp ∈ weeklyProfit recs,
      wp.1 % 7 = 0 ∧ wp.2 = profitInWeek recs wp.1) ∧
    (∀ w, w % 7 = 0 → weekLabel lo ≤ w → w ≤ weekLabel hi →
      (w, profitInWeek recs w) ∈ weeklyProfit recs) ∧
    (∀ r ∈ recs,
      (weekLabel r.saleDate, profitInWeek recs (weekLabel r.saleDate))
        ∈ weeklyProfit recs) := by
  refine ⟨?_, ?_, ?_, ?_⟩
  · rw [weeklyProfit_eq recs lo hi hmin hmax, List.map_map]
    exact (List.pairwise_lt_range _).map _ (fun a b hab => by
      show weekLabel lo + 7 * a < weekLabel lo + 7 * b
      omega)
  · intro wp hwp
    rw [weeklyProfit_eq recs lo hi hmin hmax, List.mem_map] at hwp
    obtain ⟨k, hk, rfl⟩ := hwp
    have hlo := weekLabel_mod lo
    exact ⟨by show (weekLabel lo + 7 * k) % 7 = 0; omega, rfl⟩
  · intro w hw h1 h2
    exact weeklyProfit_bucket_present recs lo hi hmin hmax w hw h1 h2
  · intro r hr
    have hmem : r.saleDate ∈ recs.map Merged.saleDate :=
      List.mem_map_of_mem _ hr
    have hlo : lo ≤ r.saleDate := (List.min?_eq_some_iff'.mp hmin).2 _ hmem
    have hhi : r.saleDate ≤ hi := (List.max?_eq_some_iff'.mp hmax).2 _ hmem
    exact weeklyProfit_bucket_present recs lo hi hmin hmax _
      (weekLabel_mod _) (weekLabel_mono hlo) (weekLabel_mono hhi)

/-- Witness for C2 (amended): on the two-sale example the empty middle
week labelled day 14 is a bucket of the trend. -/
theorem weeklyProfit_buckets_witness :
    (14, profitInWeek exW 14) ∈ weeklyProfit exW :=
  (weeklyProfit_buckets_and_zero_fills exW 1 15 (by decide)
    (by decide)).2.2.1 14 (by decide) (by decide) (by decide)

end AudioPine
